import Mathlib

/-!
Verification of the session-scoped conversation store and chat orchestration
of the AI-Chatbot-Backend-API repository.

The Python sources are shallowly embedded here:

* `src/memory.py` (`ConversationMemory`): the SQLite database is modelled as
  an explicit state `DB` holding the `sessions` and `messages` tables in
  rowid (insertion) order together with the messages table's AUTOINCREMENT
  counter.  Timestamps (`CURRENT_TIMESTAMP`) are modelled as natural numbers
  supplied by the caller (the wall clock at the moment of the call).
  Serialized JSON metadata is modelled as the serialized string itself.
  NOTE on foreign keys: the schema declares
  `FOREIGN KEY (session_id) REFERENCES sessions(session_id) ON DELETE CASCADE`,
  but SQLite ships with foreign-key enforcement OFF by default and the code
  never issues `PRAGMA foreign_keys = ON` on any connection, so the CASCADE
  clause has no runtime effect: `delete_session` removes only the session
  row and leaves the session's messages in the messages table.  The model
  reproduces this actual behaviour.

* `src/agent.py` (`ChatAgent.run`, `ChatAgent.astream`, `get_agent`): the
  fallible LangChain agent invocation is an explicit `Except String`
  argument; the module-global agent singleton is explicit state.

* `src/main.py` (`chat`, `chat_stream.generate`): the buffered endpoint as a
  state-passing function, the streaming generator as a function from the
  producer's chunk sequence and the consumer's cancellation point to the
  list of SSE frames delivered and the resulting store state.
-/

/-- A row of the `messages` table: `id` is the AUTOINCREMENT primary key
(rowid), the remaining fields are as in `_init_database`. -/
structure MessageRow where
  id : Nat
  session_id : String
  role : String
  content : String
  timestamp : Nat
  metadata : String
  deriving Repr, DecidableEq

/-- A row of the `sessions` table. -/
structure SessionRow where
  session_id : String
  created_at : Nat
  updated_at : Nat
  metadata : String
  deriving Repr, DecidableEq

/-- The SQLite database state: both tables in rowid (insertion) order, plus
the messages table's next AUTOINCREMENT id. -/
structure DB where
  sessions : List SessionRow
  messages : List MessageRow
  next_id : Nat
  deriving Repr, DecidableEq

/-- The freshly initialized database (`_init_database` on a new file);
SQLite rowids start at 1. -/
def DB.empty : DB := { sessions := [], messages := [], next_id := 1 }

/-- Model of `json.dumps(metadata or {})`: a missing metadata dict serializes to the
two-character string holding an opening and a closing curly brace. -/
def dumpsOrEmpty (md : Option String) : String := md.getD "\x7b\x7d"

/-- Model of `ConversationMemory.create_session`: `INSERT INTO sessions` succeeds and
returns `True` unless the primary key already exists, in which case the
`sqlite3.IntegrityError` branch returns `False` and the table is untouched. -/
def create_session (db : DB) (session_id : String) (metadata : Option String)
    (now : Nat) : Bool × DB :=
  if (db.sessions.find? (fun s => s.session_id == session_id)).isSome then
    (false, db)
  else
    (true, { db with
      sessions := db.sessions ++
        [{ session_id := session_id, created_at := now, updated_at := now,
           metadata := dumpsOrEmpty metadata }] })

/-- Model of `ConversationMemory.add_message`: first `create_session(session_id)`
(get-or-create, with `metadata=None`), then
`UPDATE sessions SET updated_at = CURRENT_TIMESTAMP`, then
`INSERT INTO messages` with an AUTOINCREMENT id and `CURRENT_TIMESTAMP`. -/
def add_message (db : DB) (session_id role content : String)
    (metadata : Option String) (now : Nat) : DB :=
  let db1 := (create_session db session_id none now).2
  let db2 := { db1 with
    sessions := db1.sessions.map (fun (s : SessionRow) =>
      if s.session_id == session_id then { s with updated_at := now } else s) }
  { db2 with
    messages := db2.messages ++
      [{ id := db2.next_id, session_id := session_id, role := role,
         content := content, timestamp := now,
         metadata := dumpsOrEmpty metadata }],
    next_id := db2.next_id + 1 }

/-- Stable insertion (by `timestamp`) used to model `ORDER BY timestamp ASC`:
the inserted row originates earlier in rowid order than every row of the
already-sorted tail, so it goes before any row with an equal timestamp. -/
def insertByTimestamp (m : MessageRow) : List MessageRow → List MessageRow
  | [] => [m]
  | x :: xs =>
    if m.timestamp ≤ x.timestamp then m :: x :: xs
    else x :: insertByTimestamp m xs

/-- Model of `ORDER BY timestamp ASC` over rows scanned in rowid order: SQLite serves
this query through the `(session_id, timestamp)` index, whose entries with
equal keys are ordered by rowid, so the result is the stable
timestamp-ascending ordering of the rowid-ordered row list. -/
def orderByTimestamp : List MessageRow → List MessageRow
  | [] => []
  | x :: xs => insertByTimestamp x (orderByTimestamp xs)

/-- The projection `SELECT role, content, timestamp` returned by
`get_messages`. -/
structure MessageView where
  role : String
  content : String
  timestamp : Nat
  deriving Repr, DecidableEq

/-- The row sequence produced by `get_messages`' query before the optional
`LIMIT`: `WHERE session_id = ? ORDER BY timestamp ASC`. -/
def get_message_rows (db : DB) (session_id : String) : List MessageRow :=
  orderByTimestamp (db.messages.filter (fun m => m.session_id == session_id))

/-- Model of `ConversationMemory.get_messages`: filter by `session_id`, order by
`timestamp` ascending, and append ` LIMIT ?` only when the Python value
`limit` is truthy — `None` and `0` both leave the query unlimited. -/
def get_messages (db : DB) (session_id : String) (limit : Option Nat) :
    List MessageView :=
  let rows := get_message_rows db session_id
  let rows := match limit with
    | some n => if n ≠ 0 then rows.take n else rows
    | none => rows
  rows.map (fun m =>
    { role := m.role, content := m.content, timestamp := m.timestamp })

/-- The row shape returned by `get_session_info`. -/
structure SessionInfo where
  session_id : String
  created_at : Nat
  updated_at : Nat
  metadata : String
  message_count : Nat
  deriving Repr, DecidableEq

/-- Model of `ConversationMemory.get_session_info`: the session row joined with the
correlated `COUNT(*)` of messages carrying its `session_id`; `None` when no
row matches. -/
def get_session_info (db : DB) (session_id : String) : Option SessionInfo :=
  match db.sessions.find? (fun s => s.session_id == session_id) with
  | none => none
  | some s => some
    { session_id := s.session_id, created_at := s.created_at,
      updated_at := s.updated_at, metadata := s.metadata,
      message_count :=
        (db.messages.filter (fun m => m.session_id == session_id)).length }

/-- Model of `ConversationMemory.delete_session`: `DELETE FROM sessions WHERE
session_id = ?`, returning `cursor.rowcount > 0`.  Because no connection
ever enables `PRAGMA foreign_keys`, the `ON DELETE CASCADE` declared on the
messages table is not enforced by SQLite and the messages table is left
unchanged. -/
def delete_session (db : DB) (session_id : String) : Bool × DB :=
  let remaining := db.sessions.filter (fun s => ! (s.session_id == session_id))
  (remaining.length < db.sessions.length, { db with sessions := remaining })

/-! ## Agent layer (`src/agent.py`) -/

/-- Outcome of `self.agent_executor.invoke(agent_input)` inside
`ChatAgent.run`: either the result dictionary — its `output` text and the
tool names extracted from `intermediate_steps` — or the raised exception's
description.  The LangChain call itself is the external collaborator, so it
enters the model as data. -/
abbrev AgentCall : Type := Except String (String × List String)

/-- The apology text synthesized by `ChatAgent.run`'s `except` branch. -/
def errorOutput (e : String) : String :=
  "I encountered an error: " ++ e ++ ". Please try again."

/-- What `ChatAgent.run` returns: the `output` and `tools_used` entries of
its result dictionary. -/
structure RunResult where
  output : String
  tools_used : List String
  deriving Repr, DecidableEq

/-- Model of `ChatAgent.run`: on success, the executor's `output` and the extracted
tool names; on any exception, the synthesized apology with an empty
`tools_used` list — the exception is swallowed, never re-raised. -/
def ChatAgent.run (call : AgentCall) : RunResult :=
  match call with
  | .ok (out, tools) => { output := out, tools_used := tools }
  | .error e => { output := errorOutput e, tools_used := [] }

/-- Outcome of the executor's chunk stream inside `ChatAgent.astream`: the
text chunks it yielded, and the description of the exception that
interrupted it, if any. -/
structure ProducerRun where
  chunks : List String
  fault : Option String
  deriving Repr, DecidableEq

/-- Model of `ChatAgent.astream`: forwards the executor's chunks; if the executor
raises, the `except` branch yields one final `"Error: <description>"` chunk
and the generator then finishes normally — the fault never escapes as an
exception to the consumer of the chunk sequence. -/
def ChatAgent.astream (p : ProducerRun) : List String :=
  match p.fault with
  | none => p.chunks
  | some e => p.chunks ++ ["Error: " ++ e]

/-- The configured `ChatAgent` instance, identified by the constructor
arguments it was built from (temperature modelled in thousandths, so that
Python float truthiness of `0.0` is truthiness of `0`). -/
structure ChatAgentInst where
  temperature : Nat
  max_tokens : Nat
  deriving Repr, DecidableEq

/-- Python `x or default` for an optional numeric argument: `None` and `0`
are falsy and give the default. -/
def pyOrDefault (x : Option Nat) (dflt : Nat) : Nat :=
  match x with
  | none => dflt
  | some v => if v == 0 then dflt else v

/-- Default `settings.openai_temperature = 0.7` in thousandths. -/
def defaultTemperature : Nat := 700

/-- Default `settings.openai_max_tokens = 1000`. -/
def defaultMaxTokens : Nat := 1000

/-- Model of `ChatAgent.__init__`: resolves `temperature or settings.openai_temperature`
and `max_tokens or settings.openai_max_tokens`. -/
def ChatAgent.mk (temperature max_tokens : Option Nat) : ChatAgentInst :=
  { temperature := pyOrDefault temperature defaultTemperature,
    max_tokens := pyOrDefault max_tokens defaultMaxTokens }

/-- Model of `get_agent`: the module-global `agent` variable is explicit state; a new
instance is constructed from the arguments only when the global is `None`,
otherwise the existing instance is returned and the arguments are unused.
Returns the instance together with the updated global. -/
def get_agent (g : Option ChatAgentInst) (temperature max_tokens : Option Nat) :
    ChatAgentInst × Option ChatAgentInst :=
  match g with
  | some a => (a, some a)
  | none =>
    let a := ChatAgent.mk temperature max_tokens
    (a, some a)

/-! ## HTTP orchestration (`src/main.py`) -/

/-- Model of `json.dumps({"tools_used": [...]})` as persisted by the buffered `chat`
endpoint for the assistant message's metadata. -/
def dumpsToolsUsed (tools : List String) : String :=
  "\x7b\"tools_used\": [" ++
    String.intercalate ", " (tools.map (fun t => "\"" ++ t ++ "\"")) ++
    "]\x7d"

/-- The `ChatResponse` returned by the buffered `chat` endpoint. -/
structure ChatResponse where
  response : String
  session_id : String
  tools_used : List String
  deriving Repr, DecidableEq

/-- The buffered `/chat` handler: get-or-create the session, load history,
persist the user message, run the agent (`call` being the outcome of the
external LangChain invocation), persist the assistant message with the
tools-used metadata, and return a normal response.  The three `CURRENT_-
TIMESTAMP` readings are the `now` arguments in program order.  Storage
operations are modelled as non-failing, so the handler's `except` branch
(500) is unreachable in the model: agent faults are already absorbed inside
`ChatAgent.run`. -/
def chat (db : DB) (session_id message : String) (call : AgentCall)
    (now1 now2 now3 : Nat) : DB × ChatResponse :=
  let db1 :=
    if (get_session_info db session_id).isSome then db
    else (create_session db session_id none now1).2
  let db2 := add_message db1 session_id "user" message none now2
  let result := ChatAgent.run call
  let db3 := add_message db2 session_id "assistant" result.output
    (some (dumpsToolsUsed result.tools_used)) now3
  (db3, { response := result.output, session_id := session_id,
          tools_used := result.tools_used })

/-- One SSE frame `data: <text>\n\n` as yielded by `generate`. -/
def sseFrame (text : String) : String := "data: " ++ text ++ "\n\n"

/-- The `generate` async generator of `/chat/stream`, run against a chunk
sequence (the output of `ChatAgent.astream`) and a consumer that stops
requesting frames after `cancelAfter` of them (`none` = consumes the whole
stream).  The generator yields one `data:` frame per chunk while folding
the chunk into `full_response`; the `add_message` persisting the assistant
turn executes only when the consumer requests the frame after the last
content frame, so a consumer that cancels having received at most
`chunks.length` frames never reaches it; on full consumption the
accumulated text is persisted and the `[DONE]` frame is yielded.  Returns
the frames actually delivered and the resulting store state. -/
def generateRun (db : DB) (session_id : String) (chunks : List String)
    (cancelAfter : Option Nat) (now : Nat) : List String × DB :=
  match cancelAfter with
  | some k =>
    if k ≤ chunks.length then
      ((chunks.take k).map sseFrame, db)
    else
      (chunks.map sseFrame ++ [sseFrame "[DONE]"],
       add_message db session_id "assistant" (String.join chunks) none now)
  | none =>
    (chunks.map sseFrame ++ [sseFrame "[DONE]"],
     add_message db session_id "assistant" (String.join chunks) none now)

/-! ## Auxiliary notions for stating the claims -/

/-- One `add_message` call on a fixed session: its `role`, `content` and
`metadata` arguments and the wall-clock value (`CURRENT_TIMESTAMP`) at the
moment of the call. -/
structure AppendOp where
  role : String
  content : String
  metadata : Option String
  now : Nat
  deriving Repr, DecidableEq

/-- Perform a sequence of `add_message` calls on one session. -/
def runAppends (db : DB) (session_id : String) : List AppendOp → DB
  | [] => db
  | a :: rest =>
    runAppends (add_message db session_id a.role a.content a.metadata a.now)
      session_id rest

/-- The message rows such a sequence of appends inserts, given the
AUTOINCREMENT counter at the start. -/
def mkRows (session_id : String) : Nat → List AppendOp → List MessageRow
  | _, [] => []
  | n, a :: rest =>
    { id := n, session_id := session_id, role := a.role, content := a.content,
      timestamp := a.now, metadata := dumpsOrEmpty a.metadata } ::
      mkRows session_id (n + 1) rest

/-- Strict `(timestamp, id)` lexicographic order on message rows: the order
the spec claims `get_messages` results ascend in, with `id` breaking
timestamp ties. -/
def tsIdLt (a b : MessageRow) : Prop :=
  a.timestamp < b.timestamp ∨ (a.timestamp = b.timestamp ∧ a.id < b.id)

instance (a b : MessageRow) : Decidable (tsIdLt a b) := by
  unfold tsIdLt; infer_instance

/-- The projection of an append operation that `get_messages` reports. -/
def AppendOp.view (a : AppendOp) : MessageView :=
  { role := a.role, content := a.content, timestamp := a.now }

/-- A concrete store holding the session `"s1"` with one message: created at
time 10, with `"Test"` appended at time 11. -/
def dbOneMessage : DB :=
  add_message ((create_session DB.empty "s1" none 10).2) "s1" "user" "Test"
    none 11

/-! ## Helper lemmas -/

theorem create_session_messages (db : DB) (sid : String) (md : Option String)
    (now : Nat) : (create_session db sid md now).2.messages = db.messages := by
  unfold create_session
  split <;> rfl

theorem create_session_next_id (db : DB) (sid : String) (md : Option String)
    (now : Nat) : (create_session db sid md now).2.next_id = db.next_id := by
  unfold create_session
  split <;> rfl

theorem add_message_messages (db : DB) (sid role content : String)
    (md : Option String) (now : Nat) :
    (add_message db sid role content md now).messages =
      db.messages ++
        [{ id := db.next_id, session_id := sid, role := role,
           content := content, timestamp := now,
           metadata := dumpsOrEmpty md }] := by
  unfold add_message create_session
  split <;> rfl

theorem add_message_next_id (db : DB) (sid role content : String)
    (md : Option String) (now : Nat) :
    (add_message db sid role content md now).next_id = db.next_id + 1 := by
  unfold add_message create_session
  split <;> rfl

theorem aux_find?_append_none {α : Type} (p : α → Bool) (l1 l2 : List α)
    (h : l1.find? p = none) : (l1 ++ l2).find? p = l2.find? p := by
  induction l1 with
  | nil => rfl
  | cons x xs ih =>
    cases hp : p x with
    | true => simp [List.find?_cons, hp] at h
    | false =>
      simp only [List.find?_cons, hp] at h
      simpa [List.find?_cons, hp] using ih h

theorem aux_filter_not_of_find?_none {α : Type} (p : α → Bool) (l : List α)
    (h : l.find? p = none) : l.filter (fun x => ! p x) = l := by
  induction l with
  | nil => rfl
  | cons x xs ih =>
    cases hp : p x with
    | true => simp [List.find?_cons, hp] at h
    | false =>
      simp only [List.find?_cons, hp] at h
      simp [List.filter_cons, hp, ih h]

theorem get_session_info_none_iff (db : DB) (sid : String) :
    get_session_info db sid = none ↔
      db.sessions.find? (fun s => s.session_id == sid) = none := by
  unfold get_session_info
  cases db.sessions.find? (fun s => s.session_id == sid) <;> simp

theorem orderByTimestamp_of_chain (l : List MessageRow)
    (h : l.Chain' (fun a b => a.timestamp ≤ b.timestamp)) :
    orderByTimestamp l = l := by
  induction l with
  | nil => rfl
  | cons x xs ih =>
    cases xs with
    | nil => rfl
    | cons y ys =>
      rw [List.chain'_cons] at h
      show insertByTimestamp x (orderByTimestamp (y :: ys)) = x :: y :: ys
      rw [ih h.2]
      unfold insertByTimestamp
      rw [if_pos h.1]

theorem tsIdLt_ts_le {a b : MessageRow} (h : tsIdLt a b) :
    a.timestamp ≤ b.timestamp := by
  rcases h with h | ⟨h, _⟩
  · exact Nat.le_of_lt h
  · exact Nat.le_of_eq h

theorem mkRows_chain_tsIdLt (sid : String) (ops : List AppendOp) :
    ∀ n : Nat, ops.Chain' (fun a b => a.now ≤ b.now) →
      (mkRows sid n ops).Chain' tsIdLt := by
  induction ops with
  | nil => intro n _; exact List.chain'_nil
  | cons a rest ih =>
    intro n h
    cases rest with
    | nil => simp [mkRows]
    | cons b rest2 =>
      rw [List.chain'_cons] at h
      show List.Chain' tsIdLt
        ({ id := n, session_id := sid, role := a.role, content := a.content,
           timestamp := a.now, metadata := dumpsOrEmpty a.metadata } ::
          mkRows sid (n + 1) (b :: rest2))
      have htail := ih (n + 1) h.2
      show List.Chain' tsIdLt
        ({ id := n, session_id := sid, role := a.role, content := a.content,
           timestamp := a.now, metadata := dumpsOrEmpty a.metadata } ::
         { id := n + 1, session_id := sid, role := b.role, content := b.content,
           timestamp := b.now, metadata := dumpsOrEmpty b.metadata } ::
          mkRows sid (n + 2) rest2)
      rw [List.chain'_cons]
      refine ⟨?_, htail⟩
      rcases Nat.lt_or_ge a.now b.now with hlt | hge
      · exact Or.inl hlt
      · exact Or.inr ⟨Nat.le_antisymm h.1 hge, Nat.lt_succ_self n⟩

theorem runAppends_state (sid : String) (ops : List AppendOp) :
    ∀ db : DB,
      (runAppends db sid ops).messages =
        db.messages ++ mkRows sid db.next_id ops ∧
      (runAppends db sid ops).next_id = db.next_id + ops.length := by
  induction ops with
  | nil => intro db; simp [runAppends, mkRows]
  | cons a rest ih =>
    intro db
    obtain ⟨hm, hn⟩ := ih (add_message db sid a.role a.content a.metadata a.now)
    rw [add_message_messages, add_message_next_id] at hm
    rw [add_message_next_id] at hn
    constructor
    · show (runAppends (add_message db sid a.role a.content a.metadata a.now)
        sid rest).messages = _
      rw [hm]
      simp [mkRows]
    · show (runAppends (add_message db sid a.role a.content a.metadata a.now)
        sid rest).next_id = _
      rw [hn]
      simp [Nat.add_assoc, Nat.add_comm 1 rest.length]

theorem mkRows_filter_self (sid : String) (ops : List AppendOp) :
    ∀ n : Nat,
      (mkRows sid n ops).filter (fun m => m.session_id == sid) =
        mkRows sid n ops := by
  induction ops with
  | nil => intro n; rfl
  | cons a rest ih =>
    intro n
    simp [mkRows, List.filter_cons, ih]

theorem mkRows_map_view (sid : String) (ops : List AppendOp) :
    ∀ n : Nat,
      (mkRows sid n ops).map (fun m =>
        ({ role := m.role, content := m.content, timestamp := m.timestamp } :
          MessageView)) = ops.map AppendOp.view := by
  induction ops with
  | nil => intro n; rfl
  | cons a rest ih =>
    intro n
    simp [mkRows, List.map_cons, ih, AppendOp.view]

theorem aux_find?_update_session (l : List SessionRow) (sid : String)
    (now : Nat) :
    (l.map (fun (s : SessionRow) =>
        if s.session_id == sid then { s with updated_at := now } else s)).find?
      (fun s => s.session_id == sid) =
    (l.find? (fun s => s.session_id == sid)).map
      (fun (s : SessionRow) => { s with updated_at := now }) := by
  induction l with
  | nil => rfl
  | cons x xs ih =>
    cases hp : (x.session_id == sid) with
    | true =>
      rw [List.map_cons, if_pos hp]
      simp only [List.find?_cons, hp]
      rfl
    | false =>
      have hcond : ¬ ((x.session_id == sid) = true) := by simp [hp]
      rw [List.map_cons, if_neg hcond]
      simp only [List.find?_cons, hp, ih]

theorem chat_state (db : DB) (sid msg : String) (call : AgentCall)
    (t1 t2 t3 : Nat) :
    (chat db sid msg call t1 t2 t3).1.messages =
      db.messages ++
        [{ id := db.next_id, session_id := sid, role := "user", content := msg,
           timestamp := t2, metadata := "\x7b\x7d" },
         { id := db.next_id + 1, session_id := sid, role := "assistant",
           content := (ChatAgent.run call).output, timestamp := t3,
           metadata := dumpsToolsUsed (ChatAgent.run call).tools_used }] ∧
    (chat db sid msg call t1 t2 t3).2 =
      { response := (ChatAgent.run call).output, session_id := sid,
        tools_used := (ChatAgent.run call).tools_used } := by
  have hbm : (if (get_session_info db sid).isSome then db
      else (create_session db sid none t1).2).messages = db.messages := by
    split
    · rfl
    · exact create_session_messages db sid none t1
  have hbn : (if (get_session_info db sid).isSome then db
      else (create_session db sid none t1).2).next_id = db.next_id := by
    split
    · rfl
    · exact create_session_next_id db sid none t1
  constructor
  · show (add_message
        (add_message (if (get_session_info db sid).isSome then db
          else (create_session db sid none t1).2) sid "user" msg none t2)
        sid "assistant" (ChatAgent.run call).output
        (some (dumpsToolsUsed (ChatAgent.run call).tools_used)) t3).messages = _
    rw [add_message_messages, add_message_messages, add_message_next_id,
      hbm, hbn]
    simp [dumpsOrEmpty]
  · rfl

/-! ## Claim theorems -/

/-- C1: the claim says `delete_session(id)` removes the session row and
every message owned by it, so that `get_messages(id)` afterwards returns an
empty sequence.  The code is wrong: SQLite's foreign-key enforcement is
never enabled (`PRAGMA foreign_keys = ON` is never issued), so the declared
`ON DELETE CASCADE` is inert and the messages survive.  Concretely: after
creating session `"s1"` and appending one message, `delete_session("s1")`
returns true and `get_session_info("s1")` returns not-found, yet
`get_messages("s1")` still returns the supposedly deleted message. -/
theorem delete_session_leaves_orphan_messages :
    (delete_session dbOneMessage "s1").1 = true ∧
    get_session_info (delete_session dbOneMessage "s1").2 "s1" = none ∧
    get_messages (delete_session dbOneMessage "s1").2 "s1" none =
      [{ role := "user", content := "Test", timestamp := 11 }] := by
  decide

/-- C4: in streaming mode, when the chunk sequence completes normally, the
frames delivered are one `data:` frame per chunk followed by the `[DONE]`
end-of-stream frame; exactly one assistant message is appended, its content
the concatenation of all chunks yielded; and a consumer that stops without
requesting the frame after the last content chunk observes an unchanged
store, i.e. the append happens only after the last chunk, before the end
marker is emitted. -/
theorem generateRun_complete_commits (db : DB) (sid : String)
    (chunks : List String) (now : Nat) :
    (generateRun db sid chunks none now).1 =
      chunks.map sseFrame ++ [sseFrame "[DONE]"] ∧
    (generateRun db sid chunks none now).2.messages =
      db.messages ++
        [{ id := db.next_id, session_id := sid, role := "assistant",
           content := String.join chunks, timestamp := now,
           metadata := "\x7b\x7d" }] ∧
    (generateRun db sid chunks (some chunks.length) now).2 = db := by
  refine ⟨rfl, ?_, ?_⟩
  · show (add_message db sid "assistant" (String.join chunks) none now).messages
      = _
    rw [add_message_messages]
    rfl
  · simp [generateRun]

/-- C5: in buffered mode, if the agent invocation fails with any exception,
`chat` still returns a normal response whose text is
`"I encountered an error: <description>. Please try again."` with an empty
`tools_used` list, and exactly that text is persisted as the assistant
message of the turn; the model's `chat` is total, so the fault never
reaches the transport as an error. -/
theorem chat_agent_failure_degrades (db : DB) (sid msg e : String)
    (t1 t2 t3 : Nat) :
    (chat db sid msg (Except.error e) t1 t2 t3).2 =
      { response := errorOutput e, session_id := sid, tools_used := [] } ∧
    (chat db sid msg (Except.error e) t1 t2 t3).1.messages =
      db.messages ++
        [{ id := db.next_id, session_id := sid, role := "user",
           content := msg, timestamp := t2, metadata := "\x7b\x7d" },
         { id := db.next_id + 1, session_id := sid, role := "assistant",
           content := errorOutput e, timestamp := t3,
           metadata := dumpsToolsUsed [] }] := by
  obtain ⟨hm, hr⟩ := chat_state db sid msg (Except.error e) t1 t2 t3
  exact ⟨hr, hm⟩

/-- C9: a limit of zero is falsy in Python (`if limit:`), so
`get_messages(session_id, limit=0)` never appends the `LIMIT` clause and
returns the entire history, identical to passing no limit. -/
theorem get_messages_zero_limit (db : DB) (sid : String) :
    get_messages db sid (some 0) = get_messages db sid none := by
  rfl

/-- C10: once the global agent is initialized, every later `get_agent` call
returns the same instance and ignores its `temperature` and `max_tokens`
arguments; the first call fixes the instance from its own arguments, so the
per-request overrides affect at most the first request served. -/
theorem get_agent_singleton_ignores_args (a : ChatAgentInst)
    (t1 m1 t2 m2 : Option Nat) :
    get_agent (some a) t1 m1 = (a, some a) ∧
    get_agent none t1 m1 =
      (ChatAgent.mk t1 m1, some (ChatAgent.mk t1 m1)) ∧
    (get_agent (get_agent none t1 m1).2 t2 m2).1 = ChatAgent.mk t1 m1 := by
  exact ⟨rfl, rfl, rfl⟩

/-- C8: for a positive limit `N`, `get_messages(session_id, limit=N)` is the
`N`-prefix of the full ascending history — the oldest `N` messages, not the
most recent `N` — and therefore the full history whenever `N` is at least
the session's message count. -/
theorem get_messages_limit_earliest (db : DB) (sid : String) (n : Nat)
    (h : 0 < n) :
    get_messages db sid (some n) = (get_messages db sid none).take n ∧
    ((get_messages db sid none).length ≤ n →
      get_messages db sid (some n) = get_messages db sid none) := by
  have h0 : n ≠ 0 := Nat.pos_iff_ne_zero.mp h
  have e1 : get_messages db sid (some n) =
      (get_messages db sid none).take n := by
    show (if n ≠ 0 then (get_message_rows db sid).take n
          else get_message_rows db sid).map
        (fun m => MessageView.mk m.role m.content m.timestamp) =
      ((get_message_rows db sid).map
        (fun m => MessageView.mk m.role m.content m.timestamp)).take n
    rw [if_pos h0, List.map_take]
  exact ⟨e1, fun hlen => by rw [e1, List.take_of_length_le hlen]⟩

/-- C8 witness: on the concrete two-message store, `limit=1` returns the
oldest message, and `limit=5` (at least the count) the full history. -/
theorem get_messages_limit_earliest_witness :
    0 < 1 ∧
    (get_messages dbOneMessage "s1" (some 1) =
      (get_messages dbOneMessage "s1" none).take 1 ∧
    ((get_messages dbOneMessage "s1" none).length ≤ 1 →
      get_messages dbOneMessage "s1" (some 1) =
        get_messages dbOneMessage "s1" none)) :=
  ⟨by decide, get_messages_limit_earliest dbOneMessage "s1" 1 (by decide)⟩

theorem create_session_absent (db : DB) (sid : String) (md : Option String)
    (now : Nat)
    (h : db.sessions.find? (fun s => s.session_id == sid) = none) :
    create_session db sid md now =
      (true, { db with sessions :=
        db.sessions ++ [⟨sid, now, now, dumpsOrEmpty md⟩] }) := by
  unfold create_session
  rw [h]
  rfl

theorem create_session_present (db : DB) (sid : String) (md : Option String)
    (now : Nat) (s : SessionRow)
    (h : db.sessions.find? (fun x => x.session_id == sid) = some s) :
    create_session db sid md now = (false, db) := by
  unfold create_session
  rw [h]
  rfl

theorem delete_session_fst (db : DB) (sid : String) :
    (delete_session db sid).1 =
      decide ((db.sessions.filter
        (fun s => ! (s.session_id == sid))).length < db.sessions.length) :=
  rfl

theorem delete_session_sessions (db : DB) (sid : String) :
    (delete_session db sid).2.sessions =
      db.sessions.filter (fun s => ! (s.session_id == sid)) :=
  rfl

/-- C6: for a session id not yet in the store, `create_session` returns true;
a second call returns false and leaves the store exactly as it was; after
`delete_session` removes it, a third `create_session` returns true again. -/
theorem create_session_duplicate_and_delete (db : DB) (sid : String)
    (md1 md2 md3 : Option String) (t1 t2 t3 : Nat)
    (habs : get_session_info db sid = none) :
    (create_session db sid md1 t1).1 = true ∧
    create_session (create_session db sid md1 t1).2 sid md2 t2 =
      (false, (create_session db sid md1 t1).2) ∧
    (delete_session (create_session db sid md1 t1).2 sid).1 = true ∧
    (create_session
        (delete_session (create_session db sid md1 t1).2 sid).2 sid md3
        t3).1 = true := by
  have hf : db.sessions.find? (fun s => s.session_id == sid) = none :=
    (get_session_info_none_iff db sid).mp habs
  have hc := create_session_absent db sid md1 t1 hf
  have h1 : (create_session db sid md1 t1).1 = true := by rw [hc]
  have hcreated : (create_session db sid md1 t1).2.sessions =
      db.sessions ++ [⟨sid, t1, t1, dumpsOrEmpty md1⟩] := by rw [hc]
  have hfind1 : (create_session db sid md1 t1).2.sessions.find?
      (fun s => s.session_id == sid) =
      some ⟨sid, t1, t1, dumpsOrEmpty md1⟩ := by
    rw [hcreated, aux_find?_append_none _ _ _ hf]
    simp [List.find?_cons]
  have h2 : create_session (create_session db sid md1 t1).2 sid md2 t2 =
      (false, (create_session db sid md1 t1).2) :=
    create_session_present _ _ _ _ _ hfind1
  have hrem : (create_session db sid md1 t1).2.sessions.filter
      (fun s => ! (s.session_id == sid)) = db.sessions := by
    rw [hcreated, List.filter_append,
      aux_filter_not_of_find?_none _ _ hf]
    simp [List.filter_cons]
  have h3 : (delete_session (create_session db sid md1 t1).2 sid).1 =
      true := by
    rw [delete_session_fst, hrem, hcreated]
    simp [List.length_append]
  have hds : (delete_session (create_session db sid md1 t1).2 sid).2.sessions =
      db.sessions := by
    rw [delete_session_sessions]
    exact hrem
  have hfind2 : (delete_session
      (create_session db sid md1 t1).2 sid).2.sessions.find?
      (fun s => s.session_id == sid) = none := by
    rw [hds]
    exact hf
  have h4 : (create_session
      (delete_session (create_session db sid md1 t1).2 sid).2 sid md3
      t3).1 = true := by
    rw [create_session_absent _ _ _ _ hfind2]
  exact ⟨h1, h2, h3, h4⟩

/-- C6 witness: the lifecycle on the empty store and session id `"s1"`. -/
theorem create_session_duplicate_and_delete_witness :
    get_session_info DB.empty "s1" = none ∧
    ((create_session DB.empty "s1" none 1).1 = true ∧
     create_session (create_session DB.empty "s1" none 1).2 "s1" none 2 =
       (false, (create_session DB.empty "s1" none 1).2) ∧
     (delete_session (create_session DB.empty "s1" none 1).2 "s1").1 = true ∧
     (create_session
         (delete_session (create_session DB.empty "s1" none 1).2 "s1").2 "s1"
         none 3).1 = true) :=
  ⟨by decide,
   create_session_duplicate_and_delete DB.empty "s1" none none none 1 2 3
     (by decide)⟩

/-- C7: `add_message` on an unseen session id never fails: it auto-creates
the session row with empty (`\x7b\x7d`) metadata, so after the call the
session is visible with `updated_at` equal to the append time and a message
count including the new message, and exactly the new message row was
appended to the messages table. -/
theorem add_message_autocreates_session (db : DB) (sid role content : String)
    (md : Option String) (now : Nat)
    (habs : get_session_info db sid = none) :
    get_session_info (add_message db sid role content md now) sid =
      some { session_id := sid, created_at := now, updated_at := now,
             metadata := "\x7b\x7d",
             message_count :=
               (db.messages.filter
                 (fun m => m.session_id == sid)).length + 1 } ∧
    (add_message db sid role content md now).messages =
      db.messages ++
        [{ id := db.next_id, session_id := sid, role := role,
           content := content, timestamp := now,
           metadata := dumpsOrEmpty md }] := by
  have hf : db.sessions.find? (fun s => s.session_id == sid) = none :=
    (get_session_info_none_iff db sid).mp habs
  have hc := create_session_absent db sid none now hf
  have hsess : (add_message db sid role content md now).sessions =
      ((db.sessions ++ [SessionRow.mk sid now now "\x7b\x7d"]).map
        (fun (s : SessionRow) =>
          if s.session_id == sid then { s with updated_at := now }
          else s)) := by
    show ((create_session db sid none now).2.sessions.map
      (fun (s : SessionRow) =>
        if s.session_id == sid then { s with updated_at := now } else s)) = _
    rw [hc]
    rfl
  have hone : ([SessionRow.mk sid now now "\x7b\x7d"].find?
      (fun s => s.session_id == sid)) =
      some (SessionRow.mk sid now now "\x7b\x7d") := by
    simp [List.find?_cons]
  have hfind : (add_message db sid role content md now).sessions.find?
      (fun s => s.session_id == sid) =
      some (SessionRow.mk sid now now "\x7b\x7d") := by
    rw [hsess, aux_find?_update_session, aux_find?_append_none _ _ _ hf, hone]
    simp
  constructor
  · unfold get_session_info
    rw [hfind, add_message_messages, List.filter_append]
    simp [List.filter_cons]
  · exact add_message_messages db sid role content md now

/-- C7 witness: appending to the unseen session `"s1"` of the empty store. -/
theorem add_message_autocreates_session_witness :
    get_session_info DB.empty "s1" = none ∧
    (get_session_info (add_message DB.empty "s1" "user" "hi" none 3) "s1" =
      some { session_id := "s1", created_at := 3, updated_at := 3,
             metadata := "\x7b\x7d",
             message_count :=
               (DB.empty.messages.filter
                 (fun m => m.session_id == "s1")).length + 1 } ∧
    (add_message DB.empty "s1" "user" "hi" none 3).messages =
      DB.empty.messages ++
        [{ id := DB.empty.next_id, session_id := "s1", role := "user",
           content := "hi", timestamp := 3,
           metadata := dumpsOrEmpty none }]) :=
  ⟨by decide,
   add_message_autocreates_session DB.empty "s1" "user" "hi" none 3 (by decide)⟩

/-- C2: starting from a store holding no messages of session `sid`, a
sequence of `add_message` calls performed while the wall clock never goes
backwards leaves `get_messages` returning exactly the appended turns in
append order; the underlying ordered row sequence is `mkRows`, whose
`(timestamp, id)` pairs are strictly ascending, with the AUTOINCREMENT `id`
breaking ties between equal timestamps. -/
theorem get_messages_append_order (db : DB) (sid : String)
    (ops : List AppendOp)
    (hmono : ops.Chain' (fun a b => a.now ≤ b.now))
    (hclean : db.messages.filter (fun m => m.session_id == sid) = []) :
    get_message_rows (runAppends db sid ops) sid =
      mkRows sid db.next_id ops ∧
    (mkRows sid db.next_id ops).Chain' tsIdLt ∧
    get_messages (runAppends db sid ops) sid none =
      ops.map AppendOp.view := by
  obtain ⟨hm, _⟩ := runAppends_state sid ops db
  have hchain := mkRows_chain_tsIdLt sid ops db.next_id hmono
  have hrows : get_message_rows (runAppends db sid ops) sid =
      mkRows sid db.next_id ops := by
    unfold get_message_rows
    rw [hm, List.filter_append, hclean, List.nil_append,
      mkRows_filter_self sid ops db.next_id]
    exact orderByTimestamp_of_chain _
      (hchain.imp (fun a b h => tsIdLt_ts_le h))
  refine ⟨hrows, hchain, ?_⟩
  show (get_message_rows (runAppends db sid ops) sid).map
    (fun m => MessageView.mk m.role m.content m.timestamp) = _
  rw [hrows, mkRows_map_view sid ops db.next_id]

/-- C2 witness: two appends carrying the same timestamp on the empty store;
the tie is broken by the ids 1 and 2. -/
theorem get_messages_append_order_witness :
    List.Chain' (fun (a b : AppendOp) => a.now ≤ b.now)
      [⟨"user", "hi", none, 5⟩, ⟨"assistant", "yo", none, 5⟩] ∧
    DB.empty.messages.filter (fun m => m.session_id == "s1") = [] ∧
    (get_message_rows (runAppends DB.empty "s1"
        [⟨"user", "hi", none, 5⟩, ⟨"assistant", "yo", none, 5⟩]) "s1" =
      mkRows "s1" DB.empty.next_id
        [⟨"user", "hi", none, 5⟩, ⟨"assistant", "yo", none, 5⟩] ∧
    (mkRows "s1" DB.empty.next_id
        [⟨"user", "hi", none, 5⟩, ⟨"assistant", "yo", none, 5⟩]).Chain'
      tsIdLt ∧
    get_messages (runAppends DB.empty "s1"
        [⟨"user", "hi", none, 5⟩, ⟨"assistant", "yo", none, 5⟩]) "s1" none =
      [⟨"user", "hi", none, 5⟩,
        (⟨"assistant", "yo", none, 5⟩ : AppendOp)].map AppendOp.view) :=
  ⟨List.chain'_cons.mpr ⟨Nat.le_refl 5, List.chain'_singleton _⟩, by decide,
   get_messages_append_order DB.empty "s1"
     [⟨"user", "hi", none, 5⟩, ⟨"assistant", "yo", none, 5⟩]
     (List.chain'_cons.mpr ⟨Nat.le_refl 5, List.chain'_singleton _⟩)
     (by decide)⟩

/-- C3 counterexample: the claim says a producer-side fault before
completion leaves no assistant message persisted.  In the code,
`ChatAgent.astream` catches the fault and yields one final
`"Error: <description>"` chunk, so the chunk sequence ends normally and
`generate` persists the accumulated text.  Concretely: a producer that
yields `"par"` and then faults with `"boom"` leaves the assistant message
`"parError: boom"` persisted for the turn. -/
theorem stream_producer_fault_persists_turn :
    (generateRun dbOneMessage "s1"
        (ChatAgent.astream { chunks := ["par"], fault := some "boom" })
        none 12).2.messages =
      dbOneMessage.messages ++
        [{ id := 2, session_id := "s1", role := "assistant",
           content := "parError: boom", timestamp := 12,
           metadata := "\x7b\x7d" }] ∧
    (generateRun dbOneMessage "s1"
        (ChatAgent.astream { chunks := ["par"], fault := some "boom" })
        none 12).2.messages ≠ dbOneMessage.messages := by
  refine ⟨by decide, by decide⟩

/-- C3 (amended): if the consumer disconnects and cancels before requesting
the frame that follows the last content chunk, no assistant message is
appended for the turn (the store is unchanged and only the frames consumed
so far were delivered); a producer-side fault, by contrast, is converted by
`ChatAgent.astream` into a final `"Error: <description>"` chunk, after
which the turn — the partial content plus the error text — IS persisted as
the assistant message. -/
theorem stream_cancel_drops_turn_fault_persists (db : DB) (sid : String)
    (chunks : List String) (e : String) (k now : Nat)
    (hk : k ≤ chunks.length) :
    (generateRun db sid chunks (some k) now).2 = db ∧
    (generateRun db sid chunks (some k) now).1 =
      (chunks.take k).map sseFrame ∧
    (generateRun db sid
        (ChatAgent.astream { chunks := chunks, fault := some e })
        none now).2.messages =
      db.messages ++
        [{ id := db.next_id, session_id := sid, role := "assistant",
           content := String.join (chunks ++ ["Error: " ++ e]),
           timestamp := now, metadata := "\x7b\x7d" }] := by
  refine ⟨?_, ?_, ?_⟩
  · simp only [generateRun]
    rw [if_pos hk]
  · simp only [generateRun]
    rw [if_pos hk]
  · show (add_message db sid "assistant"
        (String.join (chunks ++ ["Error: " ++ e])) none now).messages = _
    rw [add_message_messages]
    rfl

/-- C3 witness for the amended statement: consumer stops after one of two
frames — store unchanged; producer fault after `"a"`, `"b"` — the turn
including the error chunk is persisted. -/
theorem stream_cancel_drops_turn_fault_persists_witness :
    1 ≤ (["a", "b"] : List String).length ∧
    ((generateRun DB.empty "s2" ["a", "b"] (some 1) 7).2 = DB.empty ∧
     (generateRun DB.empty "s2" ["a", "b"] (some 1) 7).1 =
       ((["a", "b"] : List String).take 1).map sseFrame ∧
     (generateRun DB.empty "s2"
         (ChatAgent.astream { chunks := ["a", "b"], fault := some "x" })
         none 7).2.messages =
       DB.empty.messages ++
         [{ id := DB.empty.next_id, session_id := "s2", role := "assistant",
            content := String.join (["a", "b"] ++ ["Error: " ++ "x"]),
            timestamp := 7, metadata := "\x7b\x7d" }]) :=
  ⟨by decide,
   stream_cancel_drops_turn_fault_persists DB.empty "s2" ["a", "b"] "x" 1 7
     (by decide)⟩
